import Mathlib

/-!
Verification development for the FastSeq sequencing pipeline
(`process_seq.py`).  The Python source is shallowly embedded below:

* filesystem paths are modeled as lists of path components
  (`pathlib.Path` objects; the `/` operator appends one component — input
  names are treated as single components, i.e. they are assumed not to
  contain the path separator);
* text files are modeled as lists of lines with the trailing newline
  already removed (Python's `line.strip()` removes it anyway before any
  field is extracted, and `startswith` checks are unaffected);
* Python `dict`s are modeled as insertion-ordered association lists with
  unique keys; `d[k] = v` keeps the position of an existing key and
  appends a fresh one, exactly like CPython;
* an uncaught Python exception is modeled with `Except`: `IndexError`
  for out-of-range subscripts, `FileExistsError` for `os.makedirs` on an
  existing directory;
* external tools are opaque: an invocation is an argv list plus an
  optional stdout redirection target, and an "exit-code oracle" assigns
  each invocation its exit status.
-/

/-- Uncaught Python exceptions that the embedded code can raise. -/
inductive PyErr where
  | indexError
  | fileExistsError
  deriving DecidableEq

/-- A filesystem path, as its list of components. -/
abbrev PathT := List String

/-- Render a path the way it is passed to a subprocess argv. -/
def renderPath (p : PathT) : String := "/".intercalate p

/-- Bool test: `pre` is a prefix of `l` (Python `str.startswith`, on chars). -/
def leadsWith : List Char → List Char → Bool
  | [], _ => true
  | _ :: _, [] => false
  | c :: cs, d :: ds => c == d && leadsWith cs ds

/-- Python `s.startswith(pre)`. -/
def pyStartsWith (s pre : String) : Bool := leadsWith pre.data s.data

/-- Strip characters satisfying `p` from both ends of a char list. -/
def stripEnds (p : Char → Bool) (l : List Char) : List Char :=
  ((l.dropWhile p).reverse.dropWhile p).reverse

/-- Python `s.strip()`: remove leading and trailing whitespace. -/
def pyStrip (s : String) : String := ⟨stripEnds Char.isWhitespace s.data⟩

/-- Python `s.strip(":")`: remove leading and trailing colons. -/
def stripColon (s : String) : String := ⟨stripEnds (· == ':') s.data⟩

/-- Worker for `pySplitTab`; `acc` holds the current field reversed. -/
def splitTabGo : List Char → List Char → List String
  | [], acc => [⟨acc.reverse⟩]
  | c :: cs, acc =>
    if c == '\t' then ⟨acc.reverse⟩ :: splitTabGo cs []
    else splitTabGo cs (c :: acc)

/-- Python `s.split("\t")`: split on every tab, keeping empty fields;
the empty string yields `[""]`. -/
def pySplitTab (s : String) : List String := splitTabGo s.data []

/-- Everything before the first occurrence of `sep` in `l`
(the whole list when `sep` does not occur): Python `s.split(sep)[0]`. -/
def splitOnFirst (sep : List Char) : List Char → List Char
  | [] => []
  | c :: cs =>
    if leadsWith sep (c :: cs) then []
    else c :: splitOnFirst sep cs

/-- `ref_dict = ref_pth.split(".fasta")[0] + str(".dict")`
(process_seq.py line 107). -/
def refDict (ref : String) : String :=
  String.mk (splitOnFirst ".fasta".data ref.data) ++ ".dict"

/-- A Python dict from stat names to stat values, in insertion order. -/
abbrev StatMap := List (String × String)

/-- Python `d[k] = v`: overwrite in place if the key exists (keys of a
dict are unique), otherwise append. -/
def dictUpdate : StatMap → String × String → StatMap
  | [], kv => [kv]
  | p :: t, kv => if p.1 == kv.1 then (p.1, kv.2) :: t else p :: dictUpdate t kv

/-- Python `d.update(other)`: assign every pair of `other` in order. -/
def dictUpdateMany (d : StatMap) (other : StatMap) : StatMap :=
  other.foldl dictUpdate d

/-- Python `dict(pairs)`. -/
def dictOfPairs (l : List (String × String)) : StatMap :=
  dictUpdateMany [] l

/-- Python `d.get(k)` (first-match lookup; on a real dict keys are unique). -/
def lookupSt : StatMap → String → Option String
  | [], _ => none
  | (k, v) :: t, key => if k == key then some v else lookupSt t key

/-- Python `d.get(k, dflt)`. -/
def lookupD (m : StatMap) (k dflt : String) : String :=
  match lookupSt m k with
  | some v => v
  | none => dflt

/-- First defined option (used to state last-write-wins precedence). -/
def orFirst (a b : Option String) : Option String :=
  match a with
  | some x => some x
  | none => b

/-- `stats_of_interest` (process_seq.py lines 346-351). -/
def statsOfInterest : List String :=
  ["number of SNPs:",
   "number of MNPs:",
   "number of indels:",
   "number of others:",
   "number of multiallelic sites:",
   "number of multiallelic SNP sites:"]

/-- The `for line in statsf` loop of `extract_bcf_stats`
(process_seq.py lines 356-364): on an `SN`-tagged line, tab-split the
stripped line, take `parts[-2]` as the stat name and `parts[-1]` as its
value (an `IndexError` when fewer than two fields), keep the stat only
when allow-listed, stripping the colons from the kept name. -/
def bcfLoop : List String → StatMap → Except PyErr StatMap
  | [], stats => .ok stats
  | l :: ls, stats =>
    if pyStartsWith l "SN" then
      match (pySplitTab (pyStrip l)).reverse with
      | num :: stat :: _ =>
        bcfLoop ls
          (if stat ∈ statsOfInterest then dictUpdate stats (stripColon stat, num)
           else stats)
      | _ => .error .indexError
    else bcfLoop ls stats

/-- `extract_bcf_stats` (process_seq.py lines 333-366), on the lines of
the report file. -/
def extract_bcf_stats (lines : List String) : Except PyErr StatMap :=
  bcfLoop lines []

/-- The capture loop of `extract_picard_stats`
(process_seq.py lines 383-396): once a line starting with
`## METRICS CLASS` has been seen, append the tab-split of each stripped
line (the append happens before the marker test and the blank-line
test, matching the statement order of the source), and stop at the
first blank line seen while capturing. -/
def picardLoop : List String → Bool → List (List String) → List (List String)
  | [], _, acc => acc
  | l :: ls, keep, acc =>
    let acc' := if keep then acc ++ [pySplitTab (pyStrip l)] else acc
    let keep' := keep || pyStartsWith l "## METRICS CLASS"
    if keep' && (pyStrip l == "") then acc'
    else picardLoop ls keep' acc'

/-- The lines captured by `extract_picard_stats` (`split_lines`). -/
def picardCapture (lines : List String) : List (List String) :=
  picardLoop lines false []

/-- `extract_picard_stats` (process_seq.py lines 369-401):
`dict(zip(split_lines[0], split_lines[1]))`; the subscripts raise an
`IndexError` when fewer than two lines were captured, and `zip`
truncates to the shorter row. -/
def extract_picard_stats (lines : List String) : Except PyErr StatMap :=
  match picardCapture lines with
  | h :: v :: _ => .ok (dictOfPairs (h.zip v))
  | _ => .error .indexError

deriving instance DecidableEq for Except

/-- All derived paths returned by `configure_paths`
(process_seq.py lines 109-139), as a record with one field per dict key. -/
structure PathSet where
  output_base : PathT
  fwd_read : PathT
  rev_read : PathT
  adapter_pth : PathT
  ref_pth : PathT
  ref_dict : PathT
  fwd_trimmed : PathT
  rev_trimmed : PathT
  fwd_unpaired : PathT
  rev_unpaired : PathT
  sam_file : PathT
  bam_file : PathT
  consensus_file : PathT
  readgroup_bam : PathT
  vcf_file : PathT
  filtered_vcf_file : PathT
  vcf_stats_file : PathT
  flagstat_file : PathT
  wgs_metrics_file : PathT
  size_metrics_file : PathT
  size_histogram_file : PathT
  deriving DecidableEq

/-- The dictionary literal returned by `configure_paths`
(process_seq.py lines 109-139). -/
def mkPaths (base : PathT) (sample fwd rev ad ref : String) : PathSet :=
  let sample_base := base ++ ["Output", sample]
  { output_base := sample_base
    fwd_read := base ++ [fwd]
    rev_read := base ++ [rev]
    adapter_pth := base ++ [ad]
    ref_pth := base ++ [ref]
    ref_dict := base ++ [refDict ref]
    fwd_trimmed := base ++ [fwd ++ ".trimmed.fastq"]
    rev_trimmed := base ++ [rev ++ ".trimmed.fastq"]
    fwd_unpaired := base ++ [fwd ++ ".unpaired.fastq"]
    rev_unpaired := base ++ [rev ++ ".unpaired.fastq"]
    sam_file := sample_base ++ [sample ++ ".sam"]
    bam_file := sample_base ++ [sample ++ ".bam"]
    consensus_file := sample_base ++ [sample ++ ".consensus.fasta"]
    readgroup_bam := sample_base ++ [sample ++ ".readgroup.bam"]
    vcf_file := sample_base ++ [sample ++ ".vcf"]
    filtered_vcf_file := sample_base ++ [sample ++ ".filtered.vcf.gz"]
    vcf_stats_file := sample_base ++ [sample ++ ".vcf.stats.txt"]
    flagstat_file := sample_base ++ [sample ++ ".flagstat.txt"]
    wgs_metrics_file := sample_base ++ [sample ++ ".picard_wgs.txt"]
    size_metrics_file := sample_base ++ [sample ++ ".picard_size.txt"]
    size_histogram_file := sample_base ++ [sample ++ ".picard_size_hist.pdf"] }

/-- `configure_paths` (process_seq.py lines 88-139).  The filesystem
state is the list of directories that exist; `os.makedirs(sample_base)`
raises `FileExistsError` when the sample's output directory already
exists, otherwise it creates the directory and the dict of paths is
returned. -/
def configure_paths (fs : List PathT) (base : PathT)
    (sample fwd rev ad ref : String) :
    Except PyErr (PathSet × List PathT) :=
  let sample_base := base ++ ["Output", sample]
  if sample_base ∈ fs then .error .fileExistsError
  else .ok (mkPaths base sample fwd rev ad ref, sample_base :: fs)

/-- Tool path constants (process_seq.py lines 57-64). -/
def TRIMMOMATIC : String := "/tools/trimmomatic/trimmomatic-0.38.jar"

def BWA : String := "/tools/bwa/bwa"

def SAMTOOLS : String := "/tools/samtools/bin/samtools"

def BCFTOOLS : String := "/tools/samtools/bin/bcftools"

def PICARD : String := "/tools/picard/picard.jar"

def GATK : String := "/gatk/gatk.jar"

def TABIX : String := "/usr/bin/tabix"

/-- Trimmomatic configuration (process_seq.py lines 67-71). -/
def LEAD_SCORE : Nat := 3

def TRAIL_SCORE : Nat := 3

def MIN_LEN : Nat := 50

def WINDOW_SIZE : Nat := 4

def WINDOW_QUALITY : Nat := 20

/-- bcftools configuration (process_seq.py lines 74-76); `VCF_AF` is the
float `0.7`, kept here as the string an f-string renders it to. -/
def VCF_QUAL : Nat := 20

def VCF_DP : Nat := 10

def VCF_AF : String := "0.7"

/-- Picard configuration (process_seq.py lines 79-81). -/
def PICARD_COVERAGE_CAP : Nat := 100000

def PICARD_FAST_ALG : Bool := true

def PICARD_SAMPLE_SIZE : Nat := 5000

/-- Python's rendering of a bool inside an f-string. -/
def pyBoolStr (b : Bool) : String := if b then "True" else "False"

/-- One `subprocess.run` invocation: the argv list, and the file the
caller redirects the tool's stdout to, if any. -/
structure Cmd where
  argv : List String
  stdoutTo : Option PathT := none
  deriving DecidableEq

/-- A single quote character, for the bcftools filter expression. -/
def squote : String := String.singleton (Char.ofNat 39)

/-- The `bcftools filter -i` expression (process_seq.py lines 261-262). -/
def filterExpr : String :=
  "FORMAT/DP>" ++ toString VCF_DP ++ " && (FORMAT/AD[*:1]/ FORMAT/DP)>"
    ++ VCF_AF ++ " && FORMAT/AD[*:1] != " ++ squote ++ "*" ++ squote

/-- The invocation performed by `trimmomatic` (process_seq.py
lines 142-167). -/
def trimmomatic (p : PathSet) : List Cmd :=
  [{ argv := ["java", "-jar", TRIMMOMATIC, "PE", "-phred33",
              renderPath p.fwd_read, renderPath p.rev_read,
              renderPath p.fwd_trimmed, renderPath p.fwd_unpaired,
              renderPath p.rev_trimmed, renderPath p.rev_unpaired,
              "ILLUMINACLIP:" ++ renderPath p.adapter_pth ++ ":4:20:10",
              "LEADING:" ++ toString LEAD_SCORE,
              "TRAILING:" ++ toString TRAIL_SCORE,
              "SLIDINGWINDOW:" ++ toString WINDOW_SIZE ++ ":"
                ++ toString WINDOW_QUALITY,
              "MINLEN:" ++ toString MIN_LEN] }]

/-- The invocations performed by `bwa` (process_seq.py lines 170-194). -/
def bwa (p : PathSet) : List Cmd :=
  [{ argv := [BWA, "index", renderPath p.ref_pth] },
   { argv := [BWA, "mem", renderPath p.ref_pth,
              renderPath p.fwd_trimmed, renderPath p.rev_trimmed],
     stdoutTo := some p.sam_file }]

/-- The invocations performed by `samtools_gatk`
(process_seq.py lines 197-278). -/
def samtools_gatk (p : PathSet) : List Cmd :=
  [{ argv := [SAMTOOLS, "sort", renderPath p.sam_file],
     stdoutTo := some p.bam_file },
   { argv := [SAMTOOLS, "index", renderPath p.bam_file] },
   { argv := [SAMTOOLS, "faidx", renderPath p.ref_pth] },
   { argv := ["java", "-Xmx2048m", "-jar", GATK, "CreateSequenceDictionary",
              "-R", renderPath p.ref_pth, "-O", renderPath p.ref_dict] },
   { argv := ["java", "-Xmx2048m", "-jar", GATK, "AddOrReplaceReadGroups",
              "-I", renderPath p.bam_file, "-O", renderPath p.readgroup_bam,
              "-RGID", "4", "-RGLB", "lib1", "-RGPL", "illumina",
              "-RGPU", "unit1", "-RGSM", "20"] },
   { argv := [SAMTOOLS, "index", renderPath p.readgroup_bam] },
   { argv := ["java", "-Xmx2048m", "-jar", GATK, "HaplotypeCaller",
              "-R", renderPath p.ref_pth, "-I", renderPath p.readgroup_bam,
              "-O", renderPath p.vcf_file] },
   { argv := [BCFTOOLS, "filter", "-i", filterExpr, "-Oz",
              renderPath p.vcf_file],
     stdoutTo := some p.filtered_vcf_file },
   { argv := [TABIX, renderPath p.filtered_vcf_file] },
   { argv := [BCFTOOLS, "consensus", "-f", renderPath p.ref_pth,
              renderPath p.filtered_vcf_file],
     stdoutTo := some p.consensus_file }]

/-- The invocations performed by `generate_stats`
(process_seq.py lines 281-330). -/
def generate_stats (p : PathSet) : List Cmd :=
  [{ argv := [BCFTOOLS, "stats", renderPath p.filtered_vcf_file],
     stdoutTo := some p.vcf_stats_file },
   { argv := ["java", "-Xmx2048m", "-jar", PICARD, "CollectWgsMetrics",
              "COVERAGE_CAP=" ++ toString PICARD_COVERAGE_CAP,
              "USE_FAST_ALGORITHM=" ++ pyBoolStr PICARD_FAST_ALG,
              "SAMPLE_SIZE=" ++ toString PICARD_SAMPLE_SIZE,
              "I=" ++ renderPath p.bam_file,
              "R=" ++ renderPath p.ref_pth,
              "O=" ++ renderPath p.wgs_metrics_file] },
   { argv := ["java", "-Xmx2048m", "-jar", PICARD, "CollectInsertSizeMetrics",
              "I=" ++ renderPath p.bam_file,
              "H=" ++ renderPath p.size_histogram_file,
              "O=" ++ renderPath p.size_metrics_file] },
   { argv := [SAMTOOLS, "flagstat", renderPath p.readgroup_bam],
     stdoutTo := some p.flagstat_file }]

/-- Every external invocation the main loop performs for one sample, in
program order (process_seq.py lines 425-434): the result of each
`subprocess.run` call is discarded, so the next invocation is issued
unconditionally. -/
def sampleCmds (p : PathSet) : List Cmd :=
  trimmomatic p ++ bwa p ++ samtools_gatk p ++ generate_stats p

/-- Execution of a command list against an exit-code oracle: each
command is run in order and paired with its exit status; nothing in the
source inspects the status (`subprocess.run` without `check=True`), so
no command is skipped. -/
def execTrace (exitOf : Cmd → Int) (cs : List Cmd) : List (Cmd × Int) :=
  cs.map (fun c => (c, exitOf c))

/-- The stat-row construction of the main loop
(process_seq.py lines 436-446): `tmp_st = {"Sample": sample_name}` then
`tmp_st.update(vcf_st)`, `tmp_st.update(picard_wgs_st)`,
`tmp_st.update(picard_size_st)`. -/
def mergeSampleStats (sample : String) (vcf wgs size : StatMap) : StatMap :=
  dictUpdateMany (dictUpdateMany (dictUpdateMany [("Sample", sample)] vcf) wgs) size

/-- Keys of a record, in insertion order (Python `dict` iteration). -/
def dictKeys (m : StatMap) : List String := m.map Prod.fst

/-- Worker for `dedupFirst`: drop elements already seen. -/
def dedupGo : List String → List String → List String
  | [], _ => []
  | x :: xs, seen =>
    if x ∈ seen then dedupGo xs seen else x :: dedupGo xs (x :: seen)

/-- Deduplicate keeping the first occurrence of each element, the order
in which `pandas.DataFrame.from_records` discovers column names. -/
def dedupFirst (l : List String) : List String := dedupGo l []

/-- A DataFrame as the final write needs it: a named index, the column
labels, and the cell matrix (row-major, one row per index entry). -/
structure Df where
  indexName : String
  index : List String
  columns : List String
  cells : List (List String)

/-- The sample-id column of the collected records. -/
def sampleIds (stats : List StatMap) : List String :=
  stats.map (fun r => lookupD r "Sample" "")

/-- The non-`Sample` column labels of the collected records, in
first-appearance order. -/
def statNames (stats : List StatMap) : List String :=
  (dedupFirst (stats.map dictKeys).flatten).filter (fun c => !(c == "Sample"))

/-- `pd.DataFrame.from_records(final_stats)` followed by
`df.set_index("Sample", inplace=True)` (process_seq.py lines 452-453):
columns are the union of record keys in first-appearance order, the
`Sample` column becomes the index, and a record missing a column gets
an empty cell (pandas `NaN`, rendered as the empty string by
`to_csv`). -/
def fromRecordsSetIndex (stats : List StatMap) : Df :=
  { indexName := "Sample"
    index := sampleIds stats
    columns := statNames stats
    cells := stats.map (fun r => (statNames stats).map (fun c => lookupD r c "")) }

/-- `df.transpose()` (process_seq.py line 454): swap index and columns;
cell (i, j) of the result is cell (j, i) of the argument. -/
def transposeDf (d : Df) : Df :=
  { indexName := d.indexName
    index := d.columns
    columns := d.index
    cells := (List.range d.columns.length).map
      (fun i => d.cells.map (fun row => row.getD i "")) }

/-- `flipped.to_csv(..., index_label="Sample")` (process_seq.py
line 455), as the cell rows of the emitted CSV: a header row holding
the index label then the column labels, then one row per index entry
holding the index value then that row's cells. -/
def toCsv (label : String) (d : Df) : List (List String) :=
  (label :: d.columns) :: (d.index.zip d.cells).map (fun p => p.1 :: p.2)

/-- Join one CSV row with the comma delimiter `to_csv` defaults to. -/
def commaJoin (row : List String) : String := ",".intercalate row

/-- `STATS_OUTPUT_PATH = BASE_DIR / "Output" / "final_stats.csv"`
(process_seq.py line 46). -/
def STATS_OUTPUT_PATH (base : PathT) : PathT := base ++ ["Output", "final_stats.csv"]

/-- The final write (process_seq.py lines 450-455): the target path and
the comma-joined lines of the transposed stats table. -/
def finalWrite (base : PathT) (stats : List StatMap) : PathT × List String :=
  (STATS_OUTPUT_PATH base,
   (toCsv "Sample" (transposeDf (fromRecordsSetIndex stats))).map commaJoin)

/-- The paths of a `PathSet` that live under the per-sample output
directory `base / "Output" / sample` (the remaining entries — inputs,
reference-derived paths and trimmed/unpaired reads — live directly
under the base directory). -/
def outputDirPaths (ps : PathSet) : List PathT :=
  [ps.output_base, ps.sam_file, ps.bam_file, ps.consensus_file,
   ps.readgroup_bam, ps.vcf_file, ps.filtered_vcf_file, ps.vcf_stats_file,
   ps.flagstat_file, ps.wgs_metrics_file, ps.size_metrics_file,
   ps.size_histogram_file]

/-- Component number `|b| + 1` of a path of shape
`b ++ ("Output" :: s :: t)` is the sample id `s`. -/
theorem getElem_sample_component (b : List String) (s : String) (t : List String) :
    (b ++ ("Output" :: s :: t))[b.length + 1]? = some s := by
  rw [List.getElem?_append_right (by omega)]
  simp

/-- Every output-directory path of `mkPaths` carries the sample id as
the component right after the base directory and `"Output"`. -/
theorem mem_outputDirPaths (b : List String) (s f r a rf : String) (p : PathT)
    (hp : p ∈ outputDirPaths (mkPaths b s f r a rf)) :
    p[b.length + 1]? = some s := by
  simp only [outputDirPaths, mkPaths, List.mem_cons, List.mem_singleton,
    List.not_mem_nil, or_false] at hp
  rcases hp with h | h | h | h | h | h | h | h | h | h | h | h <;> subst h <;>
    first
      | exact getElem_sample_component b s []
      | (rw [List.append_assoc]; exact getElem_sample_component b s _)

/-- Claim C1, counterexample: under an exit-code oracle that gives every
tool a non-zero (failing) exit status, the full fixed sequence of 17
invocations for the sample is still executed — nothing is aborted after
the first failure and no failure is surfaced. -/
theorem all_stages_run_after_failure :
    ((execTrace (fun _ => 1)
        (sampleCmds (mkPaths ["data"] "s1" "f.fastq.gz" "r.fastq.gz"
          "adapters.fasta" "ref.fasta"))).map Prod.snd
      = List.replicate 17 1)
    ∧ 2 ≤ (execTrace (fun _ => 1)
        (sampleCmds (mkPaths ["data"] "s1" "f.fastq.gz" "r.fastq.gz"
          "adapters.fasta" "ref.fasta"))).length := by
  exact ⟨rfl, by decide⟩

/-- Claim C1 (amended): exit statuses of the external tools are
ignored — `subprocess.run` is called without `check=True`, so for every
exit-code oracle the commands executed for a sample are exactly the
fixed 17-invocation sequence `sampleCmds`, independent of any non-zero
statuses, and no `StageFailure` is raised. -/
theorem exit_codes_ignored (exitOf : Cmd → Int) (p : PathSet) :
    (execTrace exitOf (sampleCmds p)).map Prod.fst = sampleCmds p
    ∧ (sampleCmds p).length = 17 := by
  constructor
  · simp only [execTrace, List.map_map]
    exact List.map_id _
  · rfl

/-- Claim C2, counterexample: two valid sample records with distinct
sample identifiers but the same forward-read file get the identical
`fwd_trimmed` path, because the trimmed path is derived from the input
read path under the base directory, not under the per-sample output
directory. -/
theorem trimmed_paths_collide :
    ("s1" : String) ≠ "s2"
    ∧ (mkPaths ["data"] "s1" "r.fastq.gz" "r2.fastq.gz" "a.fasta"
        "ref.fasta").fwd_trimmed
      = (mkPaths ["data"] "s2" "r.fastq.gz" "r2b.fastq.gz" "a.fasta"
        "ref.fasta").fwd_trimmed := by
  exact ⟨by decide, rfl⟩

/-- Claim C2 (amended): the paths that `configure_paths` places under
the per-sample output directory (output base, sam, bam, consensus,
read-group bam, vcf, filtered vcf, vcf stats, flagstat, WGS metrics,
size metrics, size histogram) never collide between two samples with
distinct identifiers; the trimmed/unpaired read paths and the
input/reference-derived paths are outside that directory and can be
shared between samples. -/
theorem output_paths_disjoint (b : PathT) (s1 s2 f1 r1 a1 rf1 f2 r2 a2 rf2 : String)
    (hne : s1 ≠ s2) (p q : PathT)
    (hp : p ∈ outputDirPaths (mkPaths b s1 f1 r1 a1 rf1))
    (hq : q ∈ outputDirPaths (mkPaths b s2 f2 r2 a2 rf2)) :
    p ≠ q := by
  intro hpq
  have h1 := mem_outputDirPaths b s1 f1 r1 a1 rf1 p hp
  have h2 := mem_outputDirPaths b s2 f2 r2 a2 rf2 q hq
  rw [hpq] at h1
  rw [h1] at h2
  exact hne (Option.some.inj h2)

/-- Witness for `output_paths_disjoint` at concrete samples. -/
theorem output_paths_disjoint_witness :
    (["data", "Output", "s1"] : PathT) ≠ ["data", "Output", "s2"] :=
  output_paths_disjoint ["data"] "s1" "s2" "f" "r" "a" "x.fasta"
    "f" "r" "a" "x.fasta" (by decide)
    ["data", "Output", "s1"] ["data", "Output", "s2"]
    (by decide) (by decide)

/-- Assigning `(k1, v)` changes exactly the binding of `k1`. -/
theorem lookup_dictUpdate (d : StatMap) (k1 v k : String) :
    lookupSt (dictUpdate d (k1, v)) k = if k = k1 then some v else lookupSt d k := by
  induction d with
  | nil =>
    by_cases h : k = k1
    · simp [dictUpdate, lookupSt, h]
    · simp only [dictUpdate, lookupSt, beq_iff_eq]
      rw [if_neg (fun hh : k1 = k => h hh.symm), if_neg h]
  | cons hd t ih =>
    obtain ⟨a, bv⟩ := hd
    by_cases h1 : a = k1
    · subst h1
      by_cases h2 : a = k
      · subst h2
        simp [dictUpdate, lookupSt]
      · simp only [dictUpdate, lookupSt, beq_iff_eq, beq_self_eq_true, if_true]
        rw [if_neg (fun hh : a = k => h2 hh), if_neg (fun hh : k = a => h2 hh.symm),
          if_neg (fun hh : a = k => h2 hh)]
    · by_cases h2 : a = k
      · subst h2
        simp only [dictUpdate, lookupSt, beq_iff_eq, beq_self_eq_true, if_true]
        rw [if_neg (fun hh : a = k1 => h1 hh)]
        simp only [lookupSt, beq_iff_eq, if_pos rfl]
        rw [if_neg (fun hh : a = k1 => h1 hh)]
        simp [lookupSt]
      · simp only [dictUpdate, lookupSt, beq_iff_eq]
        rw [if_neg (fun hh : a = k1 => h1 hh)]
        simp only [lookupSt, beq_iff_eq]
        rw [if_neg (fun hh : a = k => h2 hh), if_neg (fun hh : a = k => h2 hh)]
        exact ih

/-- A key that occurs in no binding looks up to nothing. -/
theorem lookup_eq_none_of_not_mem (m : StatMap) (k : String)
    (h : k ∉ dictKeys m) : lookupSt m k = none := by
  induction m with
  | nil => rfl
  | cons p t ih =>
    obtain ⟨a, bv⟩ := p
    simp only [dictKeys, List.map_cons, List.mem_cons, not_or] at h
    simp only [lookupSt, beq_iff_eq]
    rw [if_neg (fun hh : a = k => h.1 hh.symm)]
    exact ih (by simpa [dictKeys] using h.2)

/-- Python `d.update(other)` with duplicate-free `other` (a dict always
is): a key of `other` gets its `other` value, any other key keeps its
`d` value. -/
theorem lookup_dictUpdateMany (l d : StatMap) (k : String)
    (h : (dictKeys l).Nodup) :
    lookupSt (dictUpdateMany d l) k = orFirst (lookupSt l k) (lookupSt d k) := by
  induction l generalizing d with
  | nil => simp [dictUpdateMany, lookupSt, orFirst]
  | cons p t ih =>
    obtain ⟨k1, v⟩ := p
    have hsplit := List.nodup_cons.mp (show (k1 :: dictKeys t).Nodup from h)
    have hnd : (dictKeys t).Nodup := hsplit.2
    have hk1 : k1 ∉ dictKeys t := hsplit.1
    have step : dictUpdateMany d ((k1, v) :: t) = dictUpdateMany (dictUpdate d (k1, v)) t := rfl
    rw [step, ih _ hnd, lookup_dictUpdate]
    by_cases hk : k = k1
    · subst hk
      rw [lookup_eq_none_of_not_mem t k hk1]
      simp [orFirst, lookupSt]
    · simp only [lookupSt, beq_iff_eq]
      rw [if_neg hk, if_neg (fun hh : k1 = k => hk hh.symm)]

/-- Claim C6: the per-report StatMaps are merged by last-write-wins
union in the fixed order vcf stats, then WGS metrics, then size
metrics: merging `{"X":"1"}` then `{"X":"2","Y":"3"}` yields
`{"X":"2","Y":"3"}`, and in general a key's merged value comes from the
last of the three maps defining it (falling back to the initial
`{"Sample": sample}` row). -/
theorem stat_merge_last_write_wins :
    dictUpdateMany [("X", "1")] [("X", "2"), ("Y", "3")] = [("X", "2"), ("Y", "3")]
    ∧ ∀ s vcf wgs size k,
        (dictKeys vcf).Nodup → (dictKeys wgs).Nodup → (dictKeys size).Nodup →
        lookupSt (mergeSampleStats s vcf wgs size) k =
          orFirst (lookupSt size k)
            (orFirst (lookupSt wgs k)
              (orFirst (lookupSt vcf k) (lookupSt [("Sample", s)] k))) := by
  refine ⟨by decide, ?_⟩
  intro s vcf wgs size k h1 h2 h3
  unfold mergeSampleStats
  rw [lookup_dictUpdateMany _ _ _ h3, lookup_dictUpdateMany _ _ _ h2,
    lookup_dictUpdateMany _ _ _ h1]

/-- Witness for `stat_merge_last_write_wins`: a key defined by both the
vcf map and the WGS map ends with the WGS (later) value. -/
theorem stat_merge_last_write_wins_witness :
    lookupSt (mergeSampleStats "s1" [("A", "1")] [("A", "2")] []) "A" = some "2" :=
  (stat_merge_last_write_wins.2 "s1" [("A", "1")] [("A", "2")] [] "A"
    (by decide) (by decide) (by decide)).trans (by decide)

/-- Claim C10: a report stat named exactly `Sample` silently overwrites
the sample identifier in the merged row: the row starts as
`{"Sample": sample}` and the later `update` calls win, keeping the
`Sample` key in first position. -/
theorem sample_key_overwritten :
    mergeSampleStats "s1" [("number of SNPs", "12")] [("Sample", "7.5")] []
      = [("Sample", "7.5"), ("number of SNPs", "12")]
    ∧ ∀ s vcf wgs size,
        (dictKeys vcf).Nodup → (dictKeys wgs).Nodup → (dictKeys size).Nodup →
        lookupSt (mergeSampleStats s vcf wgs size) "Sample" =
          orFirst (lookupSt size "Sample")
            (orFirst (lookupSt wgs "Sample")
              (orFirst (lookupSt vcf "Sample") (some s))) := by
  refine ⟨by decide, ?_⟩
  intro s vcf wgs size h1 h2 h3
  unfold mergeSampleStats
  rw [lookup_dictUpdateMany _ _ _ h3, lookup_dictUpdateMany _ _ _ h2,
    lookup_dictUpdateMany _ _ _ h1]
  simp [lookupSt]

/-- Witness for `sample_key_overwritten`: a WGS-report stat called
`Sample` replaces the sample id in the merged row. -/
theorem sample_key_overwritten_witness :
    lookupSt (mergeSampleStats "s1" [] [("Sample", "GT")] []) "Sample" = some "GT" :=
  (sample_key_overwritten.2 "s1" [] [("Sample", "GT")] []
    (by decide) (by decide) (by decide)).trans (by decide)

/-- Claim C7: `configure_paths` creates `base/Output/sample` — when the
directory is fresh it returns the path dict and records the directory
as created; when the directory already exists (in particular on any
second call with the same sample and base) `os.makedirs` fails with the
directory-exists error. -/
theorem configure_paths_collision (fs : List PathT) (b : PathT)
    (s f r a rf f2 r2 a2 rf2 : String) (ps : PathSet) (fs' : List PathT) :
    (configure_paths fs b s f r a rf = .ok (ps, fs') →
      configure_paths fs' b s f2 r2 a2 rf2 = .error .fileExistsError)
    ∧ ((b ++ ["Output", s]) ∈ fs →
        configure_paths fs b s f r a rf = .error .fileExistsError)
    ∧ ((b ++ ["Output", s]) ∉ fs →
        configure_paths fs b s f r a rf
          = .ok (mkPaths b s f r a rf, (b ++ ["Output", s]) :: fs)) := by
  refine ⟨?_, ?_, ?_⟩
  · intro h
    by_cases hm : (b ++ ["Output", s]) ∈ fs
    · simp [configure_paths, hm] at h
    · simp only [configure_paths, hm, if_neg, if_false] at h
      obtain ⟨-, h2⟩ := Prod.mk.injEq .. ▸ Except.ok.inj h
      subst h2
      simp [configure_paths]
  · intro hm
    simp [configure_paths, hm]
  · intro hm
    simp [configure_paths, hm]

/-- Witness for `configure_paths_collision`: creating the same sample
directory twice fails the second time. -/
theorem configure_paths_collision_witness :
    configure_paths [["data", "Output", "s1"]] ["data"] "s1" "f" "r" "a" "x.fasta"
      = .error .fileExistsError :=
  (configure_paths_collision [["data", "Output", "s1"]] ["data"]
    "s1" "f" "r" "a" "x.fasta" "f" "r" "a" "x.fasta"
    (mkPaths ["data"] "s1" "f" "r" "a" "x.fasta") []).2.1 (by decide)

/-- A non-empty pattern is no prefix of the empty list. -/
theorem leadsWith_nil (sep : List Char) (hs : sep ≠ []) :
    leadsWith sep [] = false := by
  cases sep with
  | nil => exact absurd rfl hs
  | cons c cs => rfl

/-- When `sep` occurs at no position of `l`, `split(sep)[0]` is all of `l`. -/
theorem splitOnFirst_no_occurrence (sep : List Char) (l : List Char)
    (h : ∀ i, leadsWith sep (l.drop i) = false) :
    splitOnFirst sep l = l := by
  induction l with
  | nil => rfl
  | cons c cs ih =>
    have h0 := h 0
    simp only [List.drop_zero] at h0
    simp only [splitOnFirst, h0, if_false, Bool.false_eq_true]
    exact congrArg (c :: ·) (ih fun i => by simpa using h (i + 1))

/-- Positions at or beyond the length need not be checked for an
occurrence of a non-empty pattern. -/
theorem no_occurrence_beyond (sep l : List Char) (hs : sep ≠ [])
    (h : ∀ i < l.length, leadsWith sep (l.drop i) = false) :
    ∀ i, leadsWith sep (l.drop i) = false := by
  intro i
  by_cases hi : i < l.length
  · exact h i hi
  · rw [List.drop_eq_nil_of_le (by omega)]
    exact leadsWith_nil sep hs

/-- Claim C8, counterexample: with the reference path `genome.fa`,
which does not carry the `.fasta` suffix, `configure_paths` raises no
error at all — it succeeds and silently derives the wrong dictionary
path `genome.fa.dict`. -/
theorem ref_dict_silent_on_bad_suffix :
    configure_paths [] ["data"] "s1" "f" "r" "a" "genome.fa"
      = .ok (mkPaths ["data"] "s1" "f" "r" "a" "genome.fa",
             [["data", "Output", "s1"]])
    ∧ (mkPaths ["data"] "s1" "f" "r" "a" "genome.fa").ref_dict
      = ["data", "genome.fa.dict"] := by
  exact ⟨by decide, by decide⟩

/-- Claim C8 (amended): the reference dictionary path is everything
before the first occurrence of `.fasta` with `.dict` appended (so
`ref.fasta` gives `ref.dict`); when `.fasta` does not occur in the
reference path, no error is raised — `.dict` is silently appended to
the whole path. -/
theorem refDict_no_suffix_silent (p : String)
    (h : ∀ i, leadsWith ".fasta".data (p.data.drop i) = false) :
    refDict "ref.fasta" = "ref.dict" ∧ refDict p = p ++ ".dict" := by
  refine ⟨by decide, ?_⟩
  unfold refDict
  rw [splitOnFirst_no_occurrence _ _ h]

/-- Witness for `refDict_no_suffix_silent` at `genome.fa`. -/
theorem refDict_no_suffix_silent_witness :
    refDict "genome.fa" = "genome.fa" ++ ".dict" :=
  (refDict_no_suffix_silent "genome.fa"
    (no_occurrence_beyond _ _ (by decide) (by decide))).2

/-- Claim C3, counterexample: a picard report whose header row has two
fields (`A`, `B`) and whose value row has one field (`1`) raises no
error at all — `zip` silently truncates and extraction succeeds with
`{"A": "1"}`, so no `MalformedReportError` (which does not exist in the
program) is raised on a field-count mismatch. -/
theorem picard_mismatch_not_an_error :
    extract_picard_stats ["## METRICS CLASS", "A\tB", "1", ""] = .ok [("A", "1")]
    ∧ (pySplitTab (pyStrip "A\tB")).length = 2
    ∧ (pySplitTab (pyStrip "1")).length = 1 := by
  exact ⟨by decide, by decide, by decide⟩

/-- Claim C3 (amended): when fewer than two lines are captured after
the section marker, `extract_picard_stats` fails with an uncaught
`IndexError` (there is no `MalformedReportError` in the program); when
the header and value rows have differing tab-split field counts, no
error is raised — `zip` silently pairs up to the shorter row. -/
theorem extract_picard_stats_failure_modes :
    (∀ lines, (picardCapture lines).length < 2 →
      extract_picard_stats lines = .error .indexError)
    ∧ extract_picard_stats ["## METRICS CLASS", "A\tB", "1", ""] = .ok [("A", "1")] := by
  constructor
  · intro lines h
    rcases hcap : picardCapture lines with _ | ⟨a, t⟩
    · simp [extract_picard_stats, hcap]
    · rcases t with _ | ⟨b2, t2⟩
      · simp [extract_picard_stats, hcap]
      · rw [hcap] at h
        simp at h
        omega
  · decide

/-- Witness for `extract_picard_stats_failure_modes`: a report with no
section marker captures nothing and raises the index error. -/
theorem extract_picard_stats_failure_modes_witness :
    extract_picard_stats ["no marker here"] = .error .indexError :=
  extract_picard_stats_failure_modes.1 ["no marker here"] (by decide)

/-- Claim C4: `extract_bcf_stats` scans lines; the example report
yields exactly `{"number of SNPs": "42"}` (the non-allow-listed stat is
omitted); a line not starting with the `SN` tag is ignored; an empty
report yields the empty map (no zero-fill); and an `SN` line is
processed by tab-splitting the stripped line, taking the last field as
the value and the second-to-last as the colon-terminated name, keeping
it only when allow-listed, with its colon stripped. -/
theorem extract_bcf_stats_spec :
    extract_bcf_stats
        ["SN\t0\tnumber of SNPs:\t42", "SN\t0\tnumber of unrelatedstat:\t7"]
      = .ok [("number of SNPs", "42")]
    ∧ (∀ l ls, pyStartsWith l "SN" = false →
        extract_bcf_stats (l :: ls) = extract_bcf_stats ls)
    ∧ (∀ l ls stats num stat rest, pyStartsWith l "SN" = true →
        (pySplitTab (pyStrip l)).reverse = num :: stat :: rest →
        bcfLoop (l :: ls) stats =
          bcfLoop ls (if stat ∈ statsOfInterest then
            dictUpdate stats (stripColon stat, num) else stats))
    ∧ extract_bcf_stats [] = .ok [] := by
  refine ⟨by decide, ?_, ?_, rfl⟩
  · intro l ls h
    simp [extract_bcf_stats, bcfLoop, h]
  · intro l ls stats num stat rest h hs
    simp [bcfLoop, h, hs]

/-- Witness for `extract_bcf_stats_spec`: a comment line is ignored. -/
theorem extract_bcf_stats_spec_witness :
    extract_bcf_stats ["# x", "SN\t0\tnumber of SNPs:\t42"]
      = extract_bcf_stats ["SN\t0\tnumber of SNPs:\t42"] :=
  extract_bcf_stats_spec.2.1 "# x" ["SN\t0\tnumber of SNPs:\t42"] (by decide)

/-- Before the marker is seen nothing is captured and nothing breaks
the loop. -/
theorem picardLoop_skip (pre ls : List String)
    (hpre : ∀ l ∈ pre, pyStartsWith l "## METRICS CLASS" = false) :
    ∀ acc, picardLoop (pre ++ ls) false acc = picardLoop ls false acc := by
  induction pre with
  | nil => intro acc; rfl
  | cons l t ih =>
    intro acc
    have hl := hpre l (List.mem_cons_self l t)
    simp only [List.cons_append, picardLoop, hl, Bool.or_false, if_neg,
      Bool.false_and, Bool.false_eq_true, if_false]
    exact ih (fun x hx => hpre x (List.mem_cons_of_mem l hx)) acc

/-- Claim C5: in a report whose section marker line is followed by a
header line, a value line, and then a blank line, `extract_picard_stats`
captures the lines after the marker, stops at the blank line (whatever
follows it), and returns the positional zip of the tab-split header
fields with the tab-split value fields. -/
theorem extract_picard_stats_section (pre : List String) (h v b : String)
    (rest : List String)
    (hpre : ∀ l ∈ pre, pyStartsWith l "## METRICS CLASS" = false)
    (hh : pyStrip h ≠ "") (hv : pyStrip v ≠ "") (hb : pyStrip b = "") :
    extract_picard_stats (pre ++ "## METRICS CLASS" :: h :: v :: b :: rest)
      = .ok (dictOfPairs ((pySplitTab (pyStrip h)).zip (pySplitTab (pyStrip v)))) := by
  have hh' : (pyStrip h == "") = false := by
    simpa using hh
  have hv' : (pyStrip v == "") = false := by
    simpa using hv
  have hb' : (pyStrip b == "") = true := by
    simpa using hb
  have hm1 : pyStartsWith "## METRICS CLASS" "## METRICS CLASS" = true := by decide
  have hm2 : (pyStrip "## METRICS CLASS" == "") = false := by decide
  unfold extract_picard_stats picardCapture
  rw [picardLoop_skip pre _ hpre]
  simp [picardLoop, hm1, hm2, hh', hv', hb']

/-- Witness for `extract_picard_stats_section` at the spec's example
report. -/
theorem extract_picard_stats_section_witness :
    extract_picard_stats ["## METRICS CLASS", "A\tB", "1\t2", ""]
      = .ok [("A", "1"), ("B", "2")] :=
  (extract_picard_stats_section [] "A\tB" "1\t2" "" []
    (by simp) (by decide) (by decide) (by decide)).trans (by decide)

/-- Componentwise characterization of `zip` lookups. -/
theorem zip_getElem {α β : Type} (l1 : List α) (l2 : List β) (i : Nat)
    (x : α) (y : β) (h1 : l1[i]? = some x) (h2 : l2[i]? = some y) :
    (l1.zip l2)[i]? = some (x, y) := by
  induction l1 generalizing l2 i with
  | nil => simp at h1
  | cons a t ih =>
    cases l2 with
    | nil => simp at h2
    | cons b t2 =>
      cases i with
      | zero =>
        simp only [List.getElem?_cons_zero, Option.some.injEq] at h1 h2
        simp [h1, h2]
      | succ n =>
        simp only [List.getElem?_cons_succ] at h1 h2
        simpa using ih t2 n h1 h2

/-- Claim C9: the consolidated output goes to
`base_dir/Output/final_stats.csv` as comma-joined rows in
sample-as-column orientation: the record table is transposed before
serialization, the first emitted row is the index label `Sample`
followed by the sample identifiers, and row `i + 1` is the `i`-th stat
name followed by that stat's (possibly empty) value for each sample. -/
theorem final_csv_transposed (base : PathT) (stats : List StatMap) (i : Nat)
    (st : String) :
    (finalWrite base stats).1 = base ++ ["Output", "final_stats.csv"]
    ∧ ((finalWrite base stats).2)[0]? = some (commaJoin ("Sample" :: sampleIds stats))
    ∧ ((statNames stats)[i]? = some st →
        ((finalWrite base stats).2)[i + 1]? =
          some (commaJoin (st :: stats.map (fun r => lookupD r st "")))) := by
  refine ⟨rfl, ?_, ?_⟩
  · simp [finalWrite, toCsv, transposeDf, fromRecordsSetIndex]
  intro hi
  have hlen : i < (statNames stats).length := by
    by_contra hlt
    rw [List.getElem?_eq_none (by omega)] at hi
    exact Option.noConfusion hi
  have hcells : ((List.range (statNames stats).length).map
      (fun j => (stats.map (fun r => (statNames stats).map (fun c => lookupD r c ""))).map
        (fun row => row.getD j "")))[i]?
      = some ((stats.map (fun r => (statNames stats).map (fun c => lookupD r c ""))).map
        (fun row => row.getD i "")) := by
    rw [List.getElem?_map, List.getElem?_range hlen]
    rfl
  have hzip := zip_getElem (statNames stats) _ i st _ hi hcells
  have hrow : (stats.map (fun r => (statNames stats).map (fun c => lookupD r c ""))).map
      (fun row => row.getD i "") = stats.map (fun r => lookupD r st "") := by
    rw [List.map_map]
    refine List.map_congr_left ?_
    intro r _
    simp only [Function.comp]
    rw [List.getD_eq_getElem?_getD, List.getElem?_map, hi]
    rfl
  simp only [finalWrite, toCsv, transposeDf, fromRecordsSetIndex, List.map_cons,
    List.getElem?_cons_succ, List.getElem?_map]
  rw [hzip]
  simp
  refine congrArg commaJoin (congrArg (fun l => st :: l) ?_)
  rw [← List.map_map]
  simpa [List.getD_eq_getElem?_getD] using hrow

/-- Witness for `final_csv_transposed`: two records, stat `A`, row 1 of
the emitted CSV. -/
theorem final_csv_transposed_witness :
    ((finalWrite ["d"]
        [[("Sample", "s1"), ("A", "1")],
         [("Sample", "s2"), ("A", "9"), ("B", "7")]]).2)[1]?
      = some "A,1,9" :=
  ((final_csv_transposed ["d"]
      [[("Sample", "s1"), ("A", "1")],
       [("Sample", "s2"), ("A", "9"), ("B", "7")]] 0 "A").2.2
    (by decide)).trans (by decide)
